import Mathlib

/-!
Verification of the history-management core of an interactive calculator
(calculation value object, bounded history, undo/redo mementos, operation
dispatch).  The repository ships only the tests and the REPL; the core
modules (operations, calculation, calculator) are modelled from the
specification, with decimals embedded as exact rationals.
-/

deriving instance DecidableEq for Except

namespace MidtermCalc

/-- Modelled from the spec: the error kinds of app.exceptions that the core
raises.  `operationError` covers domain-invalid arithmetic, unknown
operations, no-operation-set and persistence faults; `validationError`
covers bad or out-of-range input. -/
inductive CalcExn where
  | operationError (msg : String)
  | validationError (msg : String)
deriving DecidableEq, Repr

/-- Modelled from the spec: the closed set of Operation variants of
app.operations (section 2 of the spec). -/
inductive Operation where
  | Add
  | Subtract
  | Multiply
  | Divide
  | Power
  | Root
  | Modulus
  | IntegerDivision
  | Percentage
  | AbsoluteDifference
deriving DecidableEq, Repr

/-- Modelled from the spec: the human-readable name of each Operation, as the
tests exercise them ("Addition", "Division", "Root", ...). -/
def Operation.name : Operation → String
  | .Add => "Addition"
  | .Subtract => "Subtraction"
  | .Multiply => "Multiplication"
  | .Divide => "Division"
  | .Power => "Power"
  | .Root => "Root"
  | .Modulus => "Modulus"
  | .IntegerDivision => "IntegerDivision"
  | .Percentage => "Percentage"
  | .AbsoluteDifference => "AbsoluteDifference"

/-- Modelled from the spec: the factory mapping from an operation name to the
Operation variant; unrecognized names map to none ("unknown operation"). -/
def nameToOperation : String → Option Operation
  | "Addition" => some .Add
  | "Subtraction" => some .Subtract
  | "Multiplication" => some .Multiply
  | "Division" => some .Divide
  | "Power" => some .Power
  | "Root" => some .Root
  | "Modulus" => some .Modulus
  | "IntegerDivision" => some .IntegerDivision
  | "Percentage" => some .Percentage
  | "AbsoluteDifference" => some .AbsoluteDifference
  | _ => none

/-- Exact natural k-th root: the first m with m ^ k = n, when one exists. -/
def natRootExact (n k : Nat) : Option Nat :=
  (List.range (n + 2)).find? (fun m => m ^ k == n)

/-- Modelled from the spec: the numeric value of the Root operation on the
domain the spec accepts (degree nonzero, radicand nonnegative).  Exact
integer roots are computed exactly; values whose real root is not
representable as a rational are mapped to 0, a placeholder that no claim
depends on (the source computes a decimal approximation there, which an
exact-rational embedding cannot express). -/
def rootValue (a b : ℚ) : ℚ :=
  if b.den = 1 && a.den = 1 && 0 < b.num && 0 ≤ a.num then
    match natRootExact a.num.toNat b.num.toNat with
    | some m => (m : ℚ)
    | none => 0
  else 0

/-- Modelled from the spec: the execute contract of each Operation variant
(spec section 4.1).  Divide, Modulus, IntegerDivision and Percentage fail
with "Division by zero is not allowed" when the second operand is zero;
Power fails on negative exponents; Root fails on degree zero and on
negative radicands.  A Power with a non-integer exponent is surfaced as a
generic calculation failure. -/
def Operation.execute : Operation → ℚ → ℚ → Except CalcExn ℚ
  | .Add, a, b => .ok (a + b)
  | .Subtract, a, b => .ok (a - b)
  | .Multiply, a, b => .ok (a * b)
  | .Divide, a, b =>
      if b = 0 then .error (.operationError "Division by zero is not allowed")
      else .ok (a / b)
  | .Power, a, b =>
      if b < 0 then .error (.operationError "Negative exponents are not supported")
      else if b.den = 1 then .ok (a ^ b.num.toNat)
      else .error (.operationError "Calculation failed")
  | .Root, a, b =>
      if b = 0 then .error (.operationError "Zero root is undefined")
      else if a < 0 then .error (.operationError "Cannot calculate root of negative number")
      else .ok (rootValue a b)
  | .Modulus, a, b =>
      if b = 0 then .error (.operationError "Division by zero is not allowed")
      else .ok (a - b * (⌊a / b⌋ : ℚ))
  | .IntegerDivision, a, b =>
      if b = 0 then .error (.operationError "Division by zero is not allowed")
      else .ok ((⌊a / b⌋ : ℚ))
  | .Percentage, a, b =>
      if b = 0 then .error (.operationError "Division by zero is not allowed")
      else .ok (a / b * 100)
  | .AbsoluteDifference, a, b => .ok |a - b|

/-- Modelled from the spec: the Calculation value object of app.calculation.
Its result is computed at construction as a pure function of
(operation, operand1, operand2).  The timestamp is elided: equality and
every claim are by value (operation, operands, result), never timestamp. -/
structure Calculation where
  operation : String
  operand1 : ℚ
  operand2 : ℚ
  result : ℚ
deriving DecidableEq, Repr

/-- Modelled from the spec: constructing a Calculation immediately computes
and stores the result via the matching Operation, failing with the
operation-specific domain error, and with "Unknown operation" for
unrecognized names (spec section 4.3). -/
def makeCalculation (opName : String) (a b : ℚ) : Except CalcExn Calculation :=
  match nameToOperation opName with
  | none => .error (.operationError ("Unknown operation: " ++ opName))
  | some op =>
      match op.execute a b with
      | .error e => .error e
      | .ok r => .ok { operation := opName, operand1 := a, operand2 := b, result := r }

/-- Modelled from the spec: a persisted Calculation mapping as seen by
from_dict.  Each decimal-valued field is `some q` when the stored string
parses as a decimal and `none` when it does not. -/
structure CalcDict where
  operation : String
  operand1 : Option ℚ
  operand2 : Option ℚ
  result : Option ℚ
deriving DecidableEq, Repr

/-- Modelled from the spec: Calculation.from_dict (spec section 4.3).  It
fails with "Invalid calculation data" when a decimal field is not
parseable, reconstructs the Calculation by recomputing the result
independently, and compares the recomputed result with the stored one:
the returned Bool is true exactly when the two differ, i.e. when the
warning is logged.  The recomputed value is kept as authoritative. -/
def fromDict (d : CalcDict) : Except CalcExn (Bool × Calculation) :=
  match d.operand1, d.operand2, d.result with
  | some a, some b, some r =>
      match makeCalculation d.operation a b with
      | .error e => .error e
      | .ok c => .ok (decide (r ≠ c.result), c)
  | _, _, _ => .error (.operationError "Invalid calculation data")

/-- Modelled from the spec: the configuration values the core consumes
(spec section 6): the history capacity and the input-magnitude bound. -/
structure Config where
  maxHistorySize : Nat
  maxInputValue : ℚ
deriving DecidableEq, Repr

/-- Modelled from the spec: a raw operand as InputValidator sees it.  `num q`
is any input that parses to the decimal q; `invalid` covers every rejected
shape (non-numeric string, null, empty string, NaN, infinity, ...). -/
inductive RawInput where
  | num (q : ℚ)
  | invalid
deriving DecidableEq, Repr

/-- Modelled from the spec: InputValidator.validate_number (spec section
4.2).  Unparseable input fails with "Invalid number format"; a parsed
value whose magnitude exceeds the configured bound fails with "Value
exceeds maximum allowed". -/
def validateNumber (cfg : Config) : RawInput → Except CalcExn ℚ
  | .invalid => .error (.validationError "Invalid number format")
  | .num q =>
      if cfg.maxInputValue < |q| then
        .error (.validationError "Value exceeds maximum allowed")
      else .ok q

/-- Modelled from the spec: the Calculator state (spec section 3).  A
memento is the snapshot copy of the history it captured; memento and
stack-entry timestamps are elided as no claim observes them.  Stacks push
and pop at the head. -/
structure CalculatorState where
  history : List Calculation
  undoStack : List (List Calculation)
  redoStack : List (List Calculation)
  operationStrategy : Option Operation
deriving DecidableEq, Repr

/-- Modelled from the spec: the empty starting state of a fresh Calculator. -/
def initialState : CalculatorState :=
  { history := [], undoStack := [], redoStack := [], operationStrategy := none }

/-- Modelled from the spec: set_operation installs the active strategy. -/
def setOperation (st : CalculatorState) (op : Operation) : CalculatorState :=
  { st with operationStrategy := some op }

/-- Modelled from the spec: Calculator.perform_operation (spec section 4.6).
It fails with "No operation set" before validation when no strategy is
installed; otherwise it validates operand1 then operand2, constructs the
Calculation (computing the result), and only then mutates state: push a
memento of the pre-append history onto the undo stack, append the
Calculation, evict the oldest entry when over capacity (one pop), and
clear the redo stack.  Errors propagate before any mutation. -/
def performOperation (cfg : Config) (st : CalculatorState) (a b : RawInput) :
    Except CalcExn (ℚ × CalculatorState) :=
  match st.operationStrategy with
  | none => .error (.operationError "No operation set")
  | some op =>
      match validateNumber cfg a with
      | .error e => .error e
      | .ok va =>
          match validateNumber cfg b with
          | .error e => .error e
          | .ok vb =>
              match makeCalculation op.name va vb with
              | .error e => .error e
              | .ok c =>
                  .ok (c.result,
                    { history :=
                        if cfg.maxHistorySize < (st.history ++ [c]).length then
                          (st.history ++ [c]).drop 1
                        else st.history ++ [c]
                      undoStack := st.history :: st.undoStack
                      redoStack := []
                      operationStrategy := st.operationStrategy })

/-- Runs perform_operation as a state transition: a failed call leaves the
state exactly as it was (the source raises before mutating). -/
def applyPerform (cfg : Config) (st : CalculatorState) (ab : RawInput × RawInput) :
    CalculatorState :=
  match performOperation cfg st ab.1 ab.2 with
  | .ok (_, st') => st'
  | .error _ => st

/-- Modelled from the spec: Calculator.undo (spec section 4.6).  Returns
false on an empty undo stack; otherwise pops a memento, pushes a memento
of the current history onto the redo stack, and restores the history from
the popped snapshot. -/
def undo (st : CalculatorState) : Bool × CalculatorState :=
  match st.undoStack with
  | [] => (false, st)
  | m :: rest =>
      (true,
        { history := m
          undoStack := rest
          redoStack := st.history :: st.redoStack
          operationStrategy := st.operationStrategy })

/-- Modelled from the spec: Calculator.redo, the mirror image of undo with
the two stacks swapped. -/
def redo (st : CalculatorState) : Bool × CalculatorState :=
  match st.redoStack with
  | [] => (false, st)
  | m :: rest =>
      (true,
        { history := m
          undoStack := st.history :: st.undoStack
          redoStack := rest
          operationStrategy := st.operationStrategy })

/-- Modelled from the spec: the outcome of the persistence collaborator on
load — either the persisted Calculations (an absent file loads as the
empty list) or a failure message (spec section 6). -/
abbrev LoadOutcome := Except String (List Calculation)

/-- Modelled from the spec: Calculator.load_history (spec section 4.6).  A
persistence fault is wrapped as a "Failed to load history" operation
error; on success the loaded sequence replaces the history wholesale. -/
def loadHistory (st : CalculatorState) (outcome : LoadOutcome) :
    Except CalcExn CalculatorState :=
  match outcome with
  | .error msg => .error (.operationError ("Failed to load history: " ++ msg))
  | .ok h => .ok { st with history := h }

/-- Renders the message carried by an error. -/
def CalcExn.message : CalcExn → String
  | .operationError m => m
  | .validationError m => m

/-- Modelled from the spec: Calculator construction.  It attempts to load
existing history; a load failure is not propagated — a warning
"Could not load existing history: ..." is logged (returned here as the
second component) and initialization completes with the empty history. -/
def makeCalculator (outcome : LoadOutcome) : CalculatorState × Option String :=
  match loadHistory initialState outcome with
  | .ok st => (st, none)
  | .error e => (initialState, some ("Could not load existing history: " ++ e.message))

/-- Addition-only scenario configuration: large capacity and input bound. -/
def exCfg : Config := { maxHistorySize := 1000, maxInputValue := 1000000 }

/-- State of a fresh calculator after installing the Add strategy. -/
def exStart : CalculatorState := setOperation initialState .Add

/-- State after perform_operation(2, 3) with the Add strategy. -/
def exState : CalculatorState := applyPerform exCfg exStart (.num 2, .num 3)

/-- Eviction scenario configuration: capacity three. -/
def exCfg3 : Config := { maxHistorySize := 3, maxInputValue := 1000000 }

/-- State after the additions (1,2), (2,3), (3,4) under capacity three. -/
def exState3 : CalculatorState :=
  [((RawInput.num 1), (RawInput.num 2)), (.num 2, .num 3), (.num 3, .num 4)].foldl
    (applyPerform exCfg3) exStart

/-- State after a fourth addition (4,5) under capacity three. -/
def exState4 : CalculatorState := applyPerform exCfg3 exState3 (.num 4, .num 5)

/-- Characterizes a successful perform_operation call: some Calculation c was
constructed; the returned value is its result; the new history is the old
one with c appended, with one eviction at the front when over capacity;
exactly one memento of the pre-append history was pushed onto the undo
stack; and the redo stack was cleared. -/
theorem performOperation_ok_shape (cfg : Config) (st : CalculatorState)
    (a b : RawInput) (r : ℚ) (st' : CalculatorState)
    (h : performOperation cfg st a b = .ok (r, st')) :
    ∃ c : Calculation,
      r = c.result ∧
      st'.history =
        (if cfg.maxHistorySize < (st.history ++ [c]).length then
          (st.history ++ [c]).drop 1
        else st.history ++ [c]) ∧
      st'.undoStack = st.history :: st.undoStack ∧
      st'.redoStack = [] ∧
      st'.operationStrategy = st.operationStrategy := by
  unfold performOperation at h
  split at h
  · cases h
  · split at h
    · cases h
    · split at h
      · cases h
      · split at h
        · cases h
        · rename_i c hc
          rw [Except.ok.injEq, Prod.mk.injEq] at h
          obtain ⟨hr, hst⟩ := h
          subst hr
          subst hst
          exact ⟨c, rfl, rfl, rfl, rfl, rfl⟩

/-- Preservation of the capacity bound: a perform_operation call (whether it
succeeds or aborts) never moves the history length above the configured
capacity when it was within capacity before the call. -/
theorem applyPerform_bounded (cfg : Config) (st : CalculatorState)
    (ab : RawInput × RawInput) (h : st.history.length ≤ cfg.maxHistorySize) :
    (applyPerform cfg st ab).history.length ≤ cfg.maxHistorySize := by
  unfold applyPerform
  cases hp : performOperation cfg st ab.1 ab.2 with
  | error e => exact h
  | ok p =>
      obtain ⟨r, st'⟩ := p
      obtain ⟨c, -, hhist, -, -, -⟩ := performOperation_ok_shape cfg st ab.1 ab.2 r st' hp
      show st'.history.length ≤ cfg.maxHistorySize
      rw [hhist]
      split
      · rename_i hgt
        rw [List.length_drop]
        rw [List.length_append] at hgt ⊢
        simp only [List.length_cons, List.length_nil] at hgt ⊢
        omega
      · rename_i hle
        rw [List.length_append] at hle ⊢
        simp only [List.length_cons, List.length_nil] at hle ⊢
        omega

/-- Claim C3: after every perform_operation call in any sequence of calls
starting from a fresh calculator, the history length is at most the
configured max_history_size (quantifying over all call sequences covers
every intermediate state, each prefix being itself a sequence). -/
theorem history_length_bounded (cfg : Config) (inps : List (RawInput × RawInput)) :
    ((inps.foldl (applyPerform cfg) initialState).history).length ≤ cfg.maxHistorySize := by
  have gen : ∀ (l : List (RawInput × RawInput)) (st : CalculatorState),
      st.history.length ≤ cfg.maxHistorySize →
      ((l.foldl (applyPerform cfg) st).history).length ≤ cfg.maxHistorySize := by
    intro l
    induction l with
    | nil => intro st h; exact h
    | cons ab tl ih =>
        intro st h
        exact ih _ (applyPerform_bounded cfg st ab h)
  exact gen inps initialState (by simp [initialState])

/-- Claim C4: when the history is exactly at capacity (the only way an
append can exceed it by one) and perform_operation succeeds, exactly the
oldest entry is evicted: the new history is the old one without its first
entry, in order, with the new Calculation appended. -/
theorem eviction_drops_oldest (cfg : Config) (st : CalculatorState)
    (a b : RawInput) (r : ℚ) (st' : CalculatorState)
    (hpos : 0 < cfg.maxHistorySize)
    (hlen : st.history.length = cfg.maxHistorySize)
    (h : performOperation cfg st a b = .ok (r, st')) :
    ∃ c : Calculation, r = c.result ∧ st'.history = st.history.drop 1 ++ [c] := by
  obtain ⟨c, hr, hhist, -, -, -⟩ := performOperation_ok_shape cfg st a b r st' h
  refine ⟨c, hr, ?_⟩
  rw [hhist, if_pos (by rw [List.length_append]; simp [hlen])]
  exact List.drop_append_of_le_length (by omega)

/-- Claim C8: a successful perform_operation call leaves the redo stack
empty and pushes exactly one memento — the snapshot of the pre-append
history — onto the undo stack. -/
theorem perform_success_stacks (cfg : Config) (st : CalculatorState)
    (a b : RawInput) (r : ℚ) (st' : CalculatorState)
    (h : performOperation cfg st a b = .ok (r, st')) :
    st'.redoStack = [] ∧ st'.undoStack = st.history :: st.undoStack := by
  obtain ⟨c, -, -, hu, hrs, -⟩ := performOperation_ok_shape cfg st a b r st' h
  exact ⟨hrs, hu⟩

/-- Claim C1: whenever from_dict succeeds on a persisted mapping, the
returned result is the one recomputed from (operation, operand1,
operand2) — never the stored one — and when the stored result differs
from the recomputed one, the warning flag is set. -/
theorem fromDict_recomputes_result (op : String) (a b r : ℚ) (w : Bool)
    (c : Calculation)
    (h : fromDict (CalcDict.mk op (some a) (some b) (some r)) = .ok (w, c)) :
    (∃ c0 : Calculation, makeCalculation op a b = .ok c0 ∧ c.result = c0.result) ∧
      (r ≠ c.result → w = true) := by
  simp only [fromDict] at h
  cases hc0 : makeCalculation op a b with
  | error e => rw [hc0] at h; cases h
  | ok c0 =>
      rw [hc0] at h
      rw [Except.ok.injEq, Prod.mk.injEq] at h
      obtain ⟨hw, hc⟩ := h
      subst hc
      refine ⟨⟨c0, rfl, rfl⟩, fun hne => ?_⟩
      rw [← hw]
      exact decide_eq_true hne

/-- Claim C2: whenever the undo stack is nonempty, undo() returns true and a
following redo() returns true and restores the history to exactly the
list of Calculation values, in order, that it held before the undo. -/
theorem undo_then_redo_restores (st : CalculatorState) (m : List Calculation)
    (rest : List (List Calculation)) (h : st.undoStack = m :: rest) :
    (undo st).1 = true ∧ (redo (undo st).2).1 = true ∧
      (redo (undo st).2).2.history = st.history := by
  obtain ⟨hist, us, rs, os⟩ := st
  simp only at h
  subst h
  exact ⟨rfl, rfl, rfl⟩

/-- Claim C5: constructing a Calculation computes its result at construction
time and raises the operation-specific domain error otherwise:
Addition of 2 and 3 yields result 5; Division of 8 by 0 fails with the
division-by-zero error; Root of -16 with degree 2 fails with the
negative-root error; Root of 16 with degree 0 fails with the zero-root
error. -/
theorem calculation_construction_cases :
    makeCalculation "Addition" 2 3 =
        .ok { operation := "Addition", operand1 := 2, operand2 := 3, result := 5 } ∧
      makeCalculation "Division" 8 0 =
        .error (.operationError "Division by zero is not allowed") ∧
      makeCalculation "Root" (-16) 2 =
        .error (.operationError "Cannot calculate root of negative number") ∧
      makeCalculation "Root" 16 0 =
        .error (.operationError "Zero root is undefined") := by
  refine ⟨by with_unfolding_all rfl, by with_unfolding_all rfl,
    by with_unfolding_all rfl, by with_unfolding_all rfl⟩

/-- Claim C6: with no operation strategy set, perform_operation fails with
the no-operation-set error for every pair of raw operands — the check
precedes validation, so even non-numeric operands produce this error and
not a validation error. -/
theorem no_operation_set_error (cfg : Config) (st : CalculatorState)
    (a b : RawInput) (h : st.operationStrategy = none) :
    performOperation cfg st a b = .error (.operationError "No operation set") := by
  unfold performOperation
  rw [h]

/-- Claim C7: a perform_operation call that fails (in particular on operand
validation or Calculation construction) has zero side effects: history,
undo stack and redo stack are all unchanged from before the call. -/
theorem perform_error_atomic (cfg : Config) (st : CalculatorState)
    (a b : RawInput) (e : CalcExn)
    (h : performOperation cfg st a b = .error e) :
    (applyPerform cfg st (a, b)).history = st.history ∧
      (applyPerform cfg st (a, b)).undoStack = st.undoStack ∧
      (applyPerform cfg st (a, b)).redoStack = st.redoStack := by
  unfold applyPerform
  rw [h]
  exact ⟨rfl, rfl, rfl⟩

/-- Claim C9: a history-load failure during Calculator construction is not
propagated — the constructor logs the "Could not load existing history"
warning and completes with the empty initial state — whereas an explicit
load_history call on the same failing outcome raises the wrapped
"Failed to load history" operation error. -/
theorem init_load_failure_swallowed (msg : String) :
    (makeCalculator (.error msg)).1 = initialState ∧
      (makeCalculator (.error msg)).1.history = [] ∧
      (makeCalculator (.error msg)).2 =
        some ("Could not load existing history: " ++
          ("Failed to load history: " ++ msg)) ∧
      loadHistory initialState (.error msg) =
        .error (.operationError ("Failed to load history: " ++ msg)) := by
  exact ⟨rfl, rfl, rfl, rfl⟩

/-- Claim C10: a Calculator constructed when no persisted history exists (an
absent file loads as the empty history) starts in the empty state: empty
history, empty undo and redo stacks, and no operation strategy set. -/
theorem fresh_calculator_empty_state :
    makeCalculator (.ok []) = (initialState, none) ∧
      initialState.history = [] ∧
      initialState.undoStack = [] ∧
      initialState.redoStack = [] ∧
      initialState.operationStrategy = none := by
  exact ⟨rfl, rfl, rfl, rfl, rfl⟩

/-- Witness for claim C1 at the concrete record of the spec scenario: an
Addition of 2 and 3 persisted with stored result 10 loads successfully
with the warning flag set and with result 5, the recomputed value. -/
theorem fromDict_recomputes_result_witness :
    fromDict (CalcDict.mk "Addition" (some 2) (some 3) (some 10)) =
        .ok (true, Calculation.mk "Addition" 2 3 5) ∧
      ((∃ c0 : Calculation, makeCalculation "Addition" 2 3 = .ok c0 ∧
          (Calculation.mk "Addition" 2 3 5).result = c0.result) ∧
        ((10 : ℚ) ≠ (Calculation.mk "Addition" 2 3 5).result → true = true)) :=
  ⟨by with_unfolding_all rfl,
    fromDict_recomputes_result "Addition" 2 3 10 true (Calculation.mk "Addition" 2 3 5)
      (by with_unfolding_all rfl)⟩

/-- Witness for claim C2 at the spec scenario: after perform_operation(2,3)
with Add, undo() returns true leaving the history empty, and redo()
returns true leaving the history with exactly the one entry
Addition(2,3) = 5, the history held before the undo. -/
theorem undo_then_redo_restores_witness :
    exState.undoStack = [] :: [] ∧
      ((undo exState).1 = true ∧ (redo (undo exState).2).1 = true ∧
        (redo (undo exState).2).2.history = exState.history) ∧
      (undo exState).2.history = [] ∧
      (redo (undo exState).2).2.history = [Calculation.mk "Addition" 2 3 5] :=
  ⟨by with_unfolding_all rfl,
    undo_then_redo_restores exState [] [] (by with_unfolding_all rfl),
    by with_unfolding_all rfl, by with_unfolding_all rfl⟩

/-- Witness for claim C4 at the spec scenario: with capacity three, after the
additions (1,2), (2,3), (3,4), performing (4,5) evicts exactly the oldest
entry, leaving history [(2,3)=5, (3,4)=7, (4,5)=9]. -/
theorem eviction_drops_oldest_witness :
    (0 < exCfg3.maxHistorySize ∧
        exState3.history.length = exCfg3.maxHistorySize ∧
        performOperation exCfg3 exState3 (.num 4) (.num 5) = .ok (9, exState4)) ∧
      (∃ c : Calculation, (9 : ℚ) = c.result ∧
        exState4.history = exState3.history.drop 1 ++ [c]) ∧
      exState4.history = [Calculation.mk "Addition" 2 3 5,
        Calculation.mk "Addition" 3 4 7, Calculation.mk "Addition" 4 5 9] :=
  ⟨⟨by decide, by with_unfolding_all rfl, by with_unfolding_all rfl⟩,
    eviction_drops_oldest exCfg3 exState3 (.num 4) (.num 5) 9 exState4
      (by decide) (by with_unfolding_all rfl) (by with_unfolding_all rfl),
    by with_unfolding_all rfl⟩

/-- Witness for claim C6 on a fresh calculator with two non-numeric raw
operands: the call fails with the no-operation-set error, not a
validation error. -/
theorem no_operation_set_error_witness :
    initialState.operationStrategy = none ∧
      performOperation exCfg initialState .invalid .invalid =
        .error (.operationError "No operation set") :=
  ⟨rfl, no_operation_set_error exCfg initialState .invalid .invalid rfl⟩

/-- Witness for claim C7: on a calculator holding one Calculation, a
validation failure (non-numeric first operand) and a construction failure
(division by zero) each abort perform_operation leaving history, undo
stack and redo stack unchanged. -/
theorem perform_error_atomic_witness :
    (performOperation exCfg exState .invalid (.num 3) =
        .error (.validationError "Invalid number format") ∧
      ((applyPerform exCfg exState (.invalid, .num 3)).history = exState.history ∧
        (applyPerform exCfg exState (.invalid, .num 3)).undoStack = exState.undoStack ∧
        (applyPerform exCfg exState (.invalid, .num 3)).redoStack = exState.redoStack)) ∧
      (performOperation exCfg (setOperation exState .Divide) (.num 8) (.num 0) =
          .error (.operationError "Division by zero is not allowed") ∧
        ((applyPerform exCfg (setOperation exState .Divide) (.num 8, .num 0)).history =
            (setOperation exState .Divide).history ∧
          (applyPerform exCfg (setOperation exState .Divide) (.num 8, .num 0)).undoStack =
            (setOperation exState .Divide).undoStack ∧
          (applyPerform exCfg (setOperation exState .Divide) (.num 8, .num 0)).redoStack =
            (setOperation exState .Divide).redoStack)) :=
  ⟨⟨by with_unfolding_all rfl,
      perform_error_atomic exCfg exState .invalid (.num 3)
        (.validationError "Invalid number format") (by with_unfolding_all rfl)⟩,
    ⟨by with_unfolding_all rfl,
      perform_error_atomic exCfg (setOperation exState .Divide) (.num 8) (.num 0)
        (.operationError "Division by zero is not allowed") (by with_unfolding_all rfl)⟩⟩

/-- Witness for claim C8: the successful perform_operation(2,3) with Add on a
fresh calculator leaves the redo stack empty and pushes exactly the
memento of the pre-append (empty) history onto the undo stack. -/
theorem perform_success_stacks_witness :
    performOperation exCfg exStart (.num 2) (.num 3) = .ok (5, exState) ∧
      (exState.redoStack = [] ∧ exState.undoStack = exStart.history :: exStart.undoStack) :=
  ⟨by with_unfolding_all rfl,
    perform_success_stacks exCfg exStart (.num 2) (.num 3) 5 exState
      (by with_unfolding_all rfl)⟩

end MidtermCalc
